import Mathlib

/-!
Verification of the storefront client of active-pharm-testing-frontend:
the product cache, the request client with channel fallback, the cart
cookie side effects, the checkout state machine, and the request
deduplication guard.  All definitions are shallow embeddings of the
TypeScript source (src/services/api.ts, the webhook api variant,
the CartPage / HomePage dedup maps, the Checkout component, and
src/utils/cookies.ts).  JavaScript strings are modelled as Lean strings,
string truthiness as a test against the empty string, optional object
fields as Option, Date.now timestamps as integers, and the browser
cookie holding the cart id as an Option String.
-/

namespace ActivePharm

/-- JS logical-or on two optional strings: the left operand wins unless it is
absent or the empty string (falsy). -/
def jsOr (a b : Option String) : Option String :=
  match a with
  | some s => if s = "" then b else some s
  | none => b

/-- JS pattern (x || fallback) producing a plain string: the fallback is used
when the left side is absent or empty. -/
def jsOrStr (a : Option String) (fallback : String) : String :=
  match a with
  | some s => if s = "" then fallback else s
  | none => fallback

/-- JS logical-or on two optional objects: objects are always truthy, so the
left operand wins whenever it is present. -/
def jsOrOpt {α : Type} (a b : Option α) : Option α :=
  match a with
  | some x => some x
  | none => b

/-- Truthiness of a nullable string (getCartId result, status fields):
null/undefined and the empty string are falsy. -/
def truthyOpt : Option String → Bool
  | some s => !(s == "")
  | none => false

/-- A product variant as used by the cache code: only the variant id is
inspected by the logic under verification. -/
structure ProductVariant where
  variant_id : String
  stock_available : Int
deriving DecidableEq, Repr

/-- A product record (ProductRecord of the spec): the fields the cache and
normalization code read. -/
structure Product where
  product_id : String
  name : String
  variants : List ProductVariant
deriving DecidableEq, Repr

/-- One entry of productCache: the record plus the Date.now timestamp taken
when it was written. -/
structure CacheEntry where
  product : Product
  timestamp : Int
deriving DecidableEq, Repr

/-- CACHE_DURATION = 5 * 60 * 1000 (five minutes in milliseconds). -/
def CACHE_DURATION : Int := 5 * 60 * 1000

/-- The productCache map, keyed by product or variant id. -/
abbrev Cache := String → Option CacheEntry

/-- productCache.set. -/
def cacheSet (c : Cache) (key : String) (e : CacheEntry) : Cache :=
  fun k => if k = key then some e else c k

/-- The initial empty map. -/
def emptyCache : Cache := fun _ => none

/-- The cache check at the top of fetchProductDetail:
cached is returned only when present and Date.now() - cached.timestamp
is strictly below CACHE_DURATION. -/
def cacheLookup (c : Cache) (id : String) (now : Int) : Option Product :=
  match c id with
  | some e => if now - e.timestamp < CACHE_DURATION then some e.product else none
  | none => none

/-- The inner forEach of the bulk populate and of the post-fetch caching:
each variant with a truthy variant_id is written to the cache with the
product record. -/
def cacheVariantWrites (c : Cache) (p : Product) (now : Int) : Cache :=
  p.variants.foldl
    (fun acc v => if v.variant_id ≠ "" then cacheSet acc v.variant_id ⟨p, now⟩ else acc) c

/-- One step of the fetchProducts forEach: cache the product under its
product_id, then under every truthy variant id. -/
def cacheProduct (c : Cache) (p : Product) (now : Int) : Cache :=
  let c1 := cacheSet c p.product_id ⟨p, now⟩
  if p.variants.length > 0 then cacheVariantWrites c1 p now else c1

/-- The bulk populate of fetchProducts (webhook variant): forEach over the
product list. -/
def populateFromList (ps : List Product) (now : Int) (c : Cache) : Cache :=
  ps.foldl (fun acc p => cacheProduct acc p now) c

/-- The set of cache keys a single product write touches: its product_id and
every truthy variant id. -/
def productCacheKeys (p : Product) : List String :=
  p.product_id :: (p.variants.filter (fun v => v.variant_id ≠ "")).map (fun v => v.variant_id)

/-- productsListCache: the full product list kept by the webhook fetchProducts
together with its timestamp. -/
structure ListCache where
  products : List Product
  timestamp : Int
deriving DecidableEq, Repr

/-- The scan of productsListCache in fetchProductDetail: first product whose
product_id matches, or whose variant list contains a matching variant_id. -/
def findInProductsList (ps : List Product) (id : String) : Option Product :=
  ps.findSome? (fun p =>
    if p.product_id = id then some p
    else if p.variants.length > 0 then
      if p.variants.any (fun v => v.variant_id == id) then some p else none
    else none)

/-- The error taxonomy of the request client: upstream non-success status
(with status code and body text), a network-level/CORS failure (fetch threw),
and the unexpected-response-shape error. -/
inductive ApiError where
  | http (status : Int) (body : String)
  | cors (message : String)
  | unexpectedShape
deriving DecidableEq, Repr

/-- The outcome of one fetch on one channel: an HTTP success carrying the
parsed JSON body, an HTTP non-success status, or a network-level failure
(fetch rejecting with a TypeError whose message contains Failed to fetch). -/
inductive NetOutcome (α : Type) where
  | ok (response : α)
  | httpError (status : Int) (body : String)
  | netFail
deriving DecidableEq, Repr

/-- Whether a channel outcome is a failure (non-success status or network
failure). -/
def isChannelFailure {α : Type} : NetOutcome α → Bool
  | .ok _ => false
  | .httpError _ _ => true
  | .netFail => true

/-- The payload wrapper of a product-detail response body. -/
structure DetailPayload where
  product : Option Product
deriving DecidableEq, Repr

/-- A product-detail response body: an optional payload wrapper, an optional
top-level product field, and the body itself read as a product record
(self.product_id is the empty string when the body carries no truthy
product_id field). -/
structure DetailResponse where
  payload : Option DetailPayload
  product : Option Product
  self : Product
deriving DecidableEq, Repr

/-- The guard response.payload && response.payload.product. -/
def payloadProduct (r : DetailResponse) : Option Product :=
  match r.payload with
  | some pl => pl.product
  | none => none

/-- The response-shape normalization of fetchProductDetail: probe
payload.product, then the top-level product field, then the body itself when
it carries a truthy product_id; otherwise the unexpected-shape error. -/
def extractProduct (r : DetailResponse) : Except ApiError Product :=
  match payloadProduct r with
  | some p => .ok p
  | none =>
    match r.product with
    | some p => .ok p
    | none => if r.self.product_id ≠ "" then .ok r.self else .error .unexpectedShape

/-- The products payload of the list-products response; the products field is
kept optional because the webhook fetchProducts guards on its presence. -/
structure ProductsPayload where
  products : Option (List Product)
deriving DecidableEq, Repr

/-- A list-products response body. -/
structure ProductsResponse where
  status_code : Option String
  status_message : Option String
  payload : Option ProductsPayload
deriving DecidableEq, Repr

/-- Result of the webhook fetchProducts: the returned value plus the product
cache and products-list cache after its side effects. -/
structure ProductsFetchResult where
  result : Except ApiError ProductsResponse
  cache : Cache
  listCache : Option ListCache

/-- The webhook fetchProducts: on a successful response whose payload carries
a products array, store the list in productsListCache and bulk-populate
productCache (each product under its product_id and truthy variant ids);
on a non-success status or network failure, throw. -/
def fetchProductsWebhook (c : Cache) (plc : Option ListCache) (now : Int)
    (net : NetOutcome ProductsResponse) : ProductsFetchResult :=
  match net with
  | .ok data =>
    match data.payload with
    | some pl =>
      match pl.products with
      | some ps => ⟨.ok data, populateFromList ps now c, some ⟨ps, now⟩⟩
      | none => ⟨.ok data, c, plc⟩
    | none => ⟨.ok data, c, plc⟩
  | .httpError s body => ⟨.error (.http s body), c, plc⟩
  | .netFail => ⟨.error (.cors "CORS error: Unable to fetch products. Please ensure CORS is enabled on the API."), c, plc⟩

/-- The caching performed after a network fetch in the webhook
fetchProductDetail: set under the requested id, under the truthy product_id,
and under every truthy variant id. -/
def cacheFetchedDetail (c : Cache) (variantId : String) (p : Product) (now : Int) : Cache :=
  let c1 := cacheSet c variantId ⟨p, now⟩
  let c2 := if p.product_id ≠ "" then cacheSet c1 p.product_id ⟨p, now⟩ else c1
  if p.variants.length > 0 then cacheVariantWrites c2 p now else c2

/-- Result of the webhook fetchProductDetail: the value, whether the network
was hit, and the cache afterwards. -/
structure DetailFetchResult where
  result : Except ApiError Product
  networkCalled : Bool
  cache : Cache

/-- The webhook fetchProductDetail: serve from productCache when fresh, else
scan a fresh productsListCache (caching any hit), else call the network and
normalize/cache the response. -/
def fetchProductDetailWebhook (c : Cache) (plc : Option ListCache) (variantId : String)
    (now : Int) (net : NetOutcome DetailResponse) : DetailFetchResult :=
  match cacheLookup c variantId now with
  | some p => ⟨.ok p, false, c⟩
  | none =>
    let fromList : Option Product :=
      match plc with
      | some lc =>
        if now - lc.timestamp < CACHE_DURATION then findInProductsList lc.products variantId
        else none
      | none => none
    match fromList with
    | some p => ⟨.ok p, false, cacheSet c variantId ⟨p, now⟩⟩
    | none =>
      match net with
      | .ok r =>
        match extractProduct r with
        | .ok p => ⟨.ok p, true, cacheFetchedDetail c variantId p now⟩
        | .error e => ⟨.error e, true, c⟩
      | .httpError s body => ⟨.error (.http s body), true, c⟩
      | .netFail => ⟨.error (.cors "CORS error: Unable to fetch product. Please ensure CORS is enabled on the API."), true, c⟩

/-- The direct (secondary) channel of fetchProducts in api.ts: non-success
status throws with the status and body, a network failure throws the CORS
hint. -/
def fetchProductsDirect (net : NetOutcome ProductsResponse) : Except ApiError ProductsResponse :=
  match net with
  | .ok d => .ok d
  | .httpError s body => .error (.http s body)
  | .netFail => .error (.cors "CORS error: Unable to fetch products. Please ensure CORS is enabled on the API or use the proxy.")

/-- fetchProducts of api.ts in dev (proxied) mode: try the proxy channel
first; on a successful response return it; on a non-success status or a
network failure fall through to the direct channel.  The Bool records whether
the direct channel was attempted. -/
def fetchProductsDev (primary secondary : NetOutcome ProductsResponse) :
    Except ApiError ProductsResponse × Bool :=
  match primary with
  | .ok d => (.ok d, false)
  | .httpError _ _ => (fetchProductsDirect secondary, true)
  | .netFail => (fetchProductsDirect secondary, true)

/-- The direct (secondary) channel of fetchProductDetail in api.ts: normalize
a successful response, throw on non-success status or network failure. -/
def fetchProductDetailDirect (net : NetOutcome DetailResponse) : Except ApiError Product :=
  match net with
  | .ok r => extractProduct r
  | .httpError s body => .error (.http s body)
  | .netFail => .error (.cors "CORS error: Unable to fetch product. Please restart your dev server (npm run dev) to ensure the proxy is active.")

/-- fetchProductDetail of api.ts in dev (proxied) mode: try the proxy; a
successful well-shaped response is returned, while a shape error, non-success
status, or network failure on the proxy is caught and the direct channel is
attempted.  The Bool records whether the direct channel was attempted. -/
def fetchProductDetailDev (primary secondary : NetOutcome DetailResponse) :
    Except ApiError Product × Bool :=
  match primary with
  | .ok r =>
    match extractProduct r with
    | .ok p => (.ok p, false)
    | .error _ => (fetchProductDetailDirect secondary, true)
  | .httpError _ _ => (fetchProductDetailDirect secondary, true)
  | .netFail => (fetchProductDetailDirect secondary, true)

/-- One cart line item; only list emptiness matters to the code under
verification. -/
structure CartItem where
  product_variant_id : String
  quantity : Int
deriving DecidableEq, Repr

/-- The payload of an add-to-cart or cart-read response. -/
structure CartPayload where
  cart_id : Option String
  items : List CartItem
  line_items : List CartItem
deriving DecidableEq, Repr

/-- An add-to-cart or cart-read response body. -/
structure CartResponse where
  status_code : Option String
  status_message : Option String
  cart_id : Option String
  payload : Option CartPayload
deriving DecidableEq, Repr

/-- The cart identity a response carries:
response.cart_id || response.payload?.cart_id. -/
def responseCartIdentity (r : CartResponse) : Option String :=
  jsOr r.cart_id (match r.payload with | some pl => pl.cart_id | none => none)

/-- The cookie side effect of a successful addToCart: when the response
carries a truthy cart identity different from the stored one, write it; the
Bool records whether setCartId was called. -/
def addToCartCookieEffect (r : CartResponse) (existing : Option String) :
    Option String × Bool :=
  match responseCartIdentity r with
  | some c => if c ≠ "" ∧ existing ≠ some c then (some c, true) else (existing, false)
  | none => (existing, false)

/-- responseData.payload?.line_items || [] of the webhook getCartItems. -/
def responseLineItems (r : CartResponse) : List CartItem :=
  match r.payload with
  | some pl => pl.line_items
  | none => []

/-- responseData.payload?.items || [] of the webhook getCartItems. -/
def responseItems (r : CartResponse) : List CartItem :=
  match r.payload with
  | some pl => pl.items
  | none => []

/-- The cookie side effect of a successful webhook getCartItems: when both
payload.line_items and payload.items are empty, deleteCartId; otherwise the
cookie is untouched. -/
def getCartItemsCookieEffect (r : CartResponse) (existing : Option String) : Option String :=
  if (responseLineItems r).length = 0 ∧ (responseItems r).length = 0 then none else existing

/-- A shipping method as returned by the address submission. -/
structure ShippingMethod where
  id : String
  name : String
  rate : Int
  is_default : Bool
deriving DecidableEq, Repr

/-- The checkout_shipping_methods wrapper of the address response. -/
structure ShippingMethodsObj where
  shipping_methods : Option (List ShippingMethod)
deriving DecidableEq, Repr

/-- The payload of the address-submission response. -/
structure CheckoutAddressPayload where
  checkout_shipping_methods : Option ShippingMethodsObj
deriving DecidableEq, Repr

/-- The address-submission response body. -/
structure CheckoutAddressResponse where
  status_code : Option String
  status_message : Option String
  payload : Option CheckoutAddressPayload
deriving DecidableEq, Repr

/-- response.payload?.checkout_shipping_methods?.shipping_methods. -/
def addressShippingMethods (r : CheckoutAddressResponse) : Option (List ShippingMethod) :=
  match r.payload with
  | some pl =>
    match pl.checkout_shipping_methods with
    | some o => o.shipping_methods
    | none => none
  | none => none

/-- The success test used at every checkout stage:
status_code === "0" || status_message === "success". -/
def isSuccessResponse (code msg : Option String) : Bool :=
  code == some "0" || msg == some "success"

/-- A response carrying only status fields (shipping-method submission and
offline payment). -/
structure StatusResponse where
  status_code : Option String
  status_message : Option String
deriving DecidableEq, Repr

/-- The UI state of the three-step Checkout component that the handlers
read and write. -/
structure CheckoutUiState where
  currentStep : Nat
  shippingMethods : List ShippingMethod
  selectedShippingMethod : String
  error : Option String
  loading : Bool
deriving DecidableEq, Repr

/-- A handler invocation result: the UI state afterwards and how many
submission requests the invocation issued. -/
structure HandlerResult where
  state : CheckoutUiState
  submitCalls : Nat
deriving DecidableEq, Repr

/-- The address-stage handleSubmit of the three-step Checkout component.
The outcome argument is the awaited submitCheckoutAddress call: an exception
message, or a parsed response. -/
def handleSubmitModel (s : CheckoutUiState) (cartId : Option String)
    (outcome : Except String CheckoutAddressResponse) : HandlerResult :=
  if truthyOpt cartId = false then
    ⟨{ s with error := some "No cart found. Please add items to cart first." }, 0⟩
  else
    match outcome with
    | .error msg => ⟨{ s with error := some msg, loading := false }, 1⟩
    | .ok r =>
      if isSuccessResponse r.status_code r.status_message then
        match addressShippingMethods r with
        | some ms =>
          if ms.length > 0 then
            let s1 := { s with shippingMethods := ms, error := none, loading := false }
            let s2 :=
              match jsOrOpt (ms.find? (fun m => m.is_default)) ms.head? with
              | some m => { s1 with selectedShippingMethod := m.id }
              | none => s1
            ⟨{ s2 with currentStep := 2 }, 1⟩
          else ⟨{ s with error := none, loading := false }, 1⟩
        | none => ⟨{ s with error := none, loading := false }, 1⟩
      else
        let msg := jsOrStr r.status_message "Failed to submit address"
        ⟨{ s with error := some msg, loading := false }, 1⟩

/-- The shipping-stage handleShippingMethodSubmit of the three-step Checkout
component.  confirmationOk tells whether the follow-up getCheckoutData fetch
succeeded (its failure sets an error message but the step still advances). -/
def handleShippingMethodSubmitModel (s : CheckoutUiState) (cartId : Option String)
    (outcome : Except String StatusResponse) (confirmationOk : Bool) : HandlerResult :=
  if truthyOpt cartId = false then
    ⟨{ s with error := some "No cart found. Please add items to cart first." }, 0⟩
  else if s.selectedShippingMethod = "" then
    ⟨{ s with error := some "Please select a shipping method" }, 0⟩
  else
    match outcome with
    | .error msg => ⟨{ s with error := some msg, loading := false }, 1⟩
    | .ok r =>
      if isSuccessResponse r.status_code r.status_message then
        let e := if confirmationOk then none
                 else some "Failed to load confirmation data. Please refresh the page."
        ⟨{ s with error := e, currentStep := 3, loading := false }, 1⟩
      else
        let msg := jsOrStr r.status_message "Failed to submit shipping method"
        ⟨{ s with error := some msg, loading := false }, 1⟩

/-- A confirm-order invocation result: UI state, cart cookie afterwards,
whether the user was navigated home, and the number of payment requests. -/
structure ConfirmResult where
  state : CheckoutUiState
  cookie : Option String
  navigatedHome : Bool
  submitCalls : Nat
deriving DecidableEq, Repr

/-- The confirmation-stage handleConfirmOrder of the three-step Checkout
component: on success delete the cart cookie and navigate home; on failure
keep the stage and surface the message. -/
def handleConfirmOrderModel (s : CheckoutUiState) (cookie : Option String)
    (outcome : Except String StatusResponse) : ConfirmResult :=
  if truthyOpt cookie = false then
    ⟨{ s with error := some "No cart found. Please add items to cart first." }, cookie, false, 0⟩
  else
    match outcome with
    | .error msg => ⟨{ s with error := some msg, loading := false }, cookie, false, 1⟩
    | .ok r =>
      if isSuccessResponse r.status_code r.status_message then
        ⟨{ s with error := none, loading := false }, none, true, 1⟩
      else
        let msg := jsOrStr r.status_message "Failed to place order"
        ⟨{ s with error := some msg, loading := false }, cookie, false, 1⟩

/-- The state of the CartPage dedup guard: the cartPromises map (cart id to
the id of the pending promise), the number of network calls issued so far,
and a supply of fresh promise ids. -/
structure DedupState where
  promises : String → Option Nat
  networkCalls : Nat
  nextId : Nat

/-- One cached loadCartItems invocation: reuse the pending promise for this
cart id when present, otherwise issue a network call and store the new
promise in the map.  Returns the promise the caller awaits. -/
def loadCartItemsDedup (s : DedupState) (cartId : String) : DedupState × Nat :=
  match s.promises cartId with
  | some pid => (s, pid)
  | none =>
    (⟨fun k => if k = cartId then some s.nextId else s.promises k,
      s.networkCalls + 1, s.nextId + 1⟩, s.nextId)

/-- The deferred cartPromises.delete(cartId) that runs shortly after the
request settles (the setTimeout grace period, or the error path). -/
def clearCartPromise (s : DedupState) (cartId : String) : DedupState :=
  ⟨fun k => if k = cartId then none else s.promises k, s.networkCalls, s.nextId⟩

/-- Character-list prefix test: JS String.prototype.startsWith. -/
def charsStartWith : List Char → List Char → Bool
  | _, [] => true
  | [], _ :: _ => false
  | c :: cs, p :: ps => c = p && charsStartWith cs ps

/-- imageUrl.startsWith(p) of the source, on the character sequences of the
two strings. -/
def jsStartsWith (s p : String) : Bool :=
  charsStartWith s.data p.data

/-- getProductImageUrl: absolute URLs pass through; relative paths are
prefixed with https:// and the configured domain. -/
def getProductImageUrl (domainName imageUrl : String) : String :=
  if jsStartsWith imageUrl "http" then imageUrl
  else if jsStartsWith imageUrl "/" then "https://" ++ domainName ++ imageUrl
  else "https://" ++ domainName ++ "/" ++ imageUrl

/-! ## Theorems -/

/-- Claim C3: a cache lookup on a present entry returns the cached record
exactly when now - fetchedAt is strictly below the five-minute freshness
window; at now - fetchedAt = CACHE_DURATION the entry counts as expired and
the lookup reports absent, so fetchProductDetail falls through to a fetch. -/
theorem c3_cache_freshness_boundary (c : Cache) (id : String) (now : Int)
    (e : CacheEntry) (h : c id = some e) :
    (cacheLookup c id now = some e.product ↔ now - e.timestamp < CACHE_DURATION) ∧
    (now - e.timestamp = CACHE_DURATION → cacheLookup c id now = none) := by
  unfold cacheLookup
  rw [h]
  constructor
  · constructor
    · intro hsome
      by_contra hlt
      simp [hlt] at hsome
    · intro hlt
      simp [hlt]
  · intro heq
    have : ¬ (now - e.timestamp < CACHE_DURATION) := by omega
    simp [this]

/-- Witness for C3 at a concrete cache: an entry written at time 0 is served
at time 299999 and expired at exactly time 300000. -/
theorem c3_cache_freshness_boundary_witness :
    cacheLookup (cacheSet emptyCache "v1" ⟨⟨"p1", "n", []⟩, 0⟩) "v1" 299999
        = some ⟨"p1", "n", []⟩ ∧
    cacheLookup (cacheSet emptyCache "v1" ⟨⟨"p1", "n", []⟩, 0⟩) "v1" 300000 = none := by
  constructor
  · exact ((c3_cache_freshness_boundary _ "v1" 299999 ⟨⟨"p1", "n", []⟩, 0⟩ rfl).1).mpr (by decide)
  · exact (c3_cache_freshness_boundary _ "v1" 300000 ⟨⟨"p1", "n", []⟩, 0⟩ rfl).2 (by decide)

/-- Claim C2: a successful webhook cart read that returns zero items (both
the line_items and items arrays of the payload are empty) deletes the stored
cart identity cookie, and a cart read whose returned item list is non-empty
leaves the cookie unchanged. -/
theorem c2_empty_cart_clears_cookie (r : CartResponse) (existing : Option String) :
    (responseLineItems r = [] ∧ responseItems r = [] →
      getCartItemsCookieEffect r existing = none) ∧
    (responseLineItems r ≠ [] ∨ responseItems r ≠ [] →
      getCartItemsCookieEffect r existing = existing) := by
  unfold getCartItemsCookieEffect
  constructor
  · rintro ⟨h1, h2⟩
    simp [h1, h2]
  · intro h
    have hcond : ¬ ((responseLineItems r).length = 0 ∧ (responseItems r).length = 0) := by
      rcases h with h | h
      · intro hc
        exact h (List.length_eq_zero.mp hc.1)
      · intro hc
        exact h (List.length_eq_zero.mp hc.2)
    rw [if_neg hcond]

/-- Witness for C2: an empty cart response clears the cookie; a one-item
response leaves it. -/
theorem c2_empty_cart_clears_cookie_witness :
    getCartItemsCookieEffect ⟨some "0", none, none, some ⟨none, [], []⟩⟩ (some "A") = none ∧
    getCartItemsCookieEffect ⟨some "0", none, none, some ⟨none, [⟨"v1", 1⟩], []⟩⟩ (some "A")
        = some "A" := by
  constructor
  · exact (c2_empty_cart_clears_cookie ⟨some "0", none, none, some ⟨none, [], []⟩⟩
      (some "A")).1 (by decide)
  · exact (c2_empty_cart_clears_cookie ⟨some "0", none, none, some ⟨none, [⟨"v1", 1⟩], []⟩⟩
      (some "A")).2 (by decide)

/-- Claim C7: on a successful product-detail response the client probes the
nesting paths in the fixed order payload.product, then the top-level product
field, then the body itself when it carries a truthy product_id; when none
match it fails with the unexpected-shape error, which is a distinct error
from the transport (cors) and upstream-status (http) errors. -/
theorem c7_shape_probing_order (r : DetailResponse) :
    (∀ p, payloadProduct r = some p → extractProduct r = .ok p) ∧
    (payloadProduct r = none → ∀ p, r.product = some p → extractProduct r = .ok p) ∧
    (payloadProduct r = none → r.product = none → r.self.product_id ≠ "" →
      extractProduct r = .ok r.self) ∧
    (payloadProduct r = none → r.product = none → r.self.product_id = "" →
      extractProduct r = .error .unexpectedShape) ∧
    (∀ s b m, ApiError.unexpectedShape ≠ ApiError.http s b ∧
      ApiError.unexpectedShape ≠ ApiError.cors m) := by
  refine ⟨?_, ?_, ?_, ?_, ?_⟩
  · intro p hp
    simp [extractProduct, hp]
  · intro h0 p hp
    simp [extractProduct, h0, hp]
  · intro h0 h1 h2
    simp [extractProduct, h0, h1, h2]
  · intro h0 h1 h2
    simp [extractProduct, h0, h1, h2]
  · intro s b m
    exact ⟨by simp, by simp⟩

/-- Witness for C7: a doubly-wrapped response resolves to the wrapped
product, and a shapeless response yields the unexpected-shape error. -/
theorem c7_shape_probing_order_witness :
    extractProduct ⟨some ⟨some ⟨"p9", "n", []⟩⟩, none, ⟨"", "", []⟩⟩ = .ok ⟨"p9", "n", []⟩ ∧
    extractProduct ⟨none, none, ⟨"", "", []⟩⟩ = .error .unexpectedShape := by
  constructor
  · exact (c7_shape_probing_order ⟨some ⟨some ⟨"p9", "n", []⟩⟩, none, ⟨"", "", []⟩⟩).1
      ⟨"p9", "n", []⟩ (by decide)
  · exact (c7_shape_probing_order ⟨none, none, ⟨"", "", []⟩⟩).2.2.2.1 (by decide) (by decide)
      (by decide)

/-- Claim C6: in the proxied (dev) run mode, when the primary proxy channel
of fetchProducts or fetchProductDetail returns a non-success HTTP status or
fails at the network level, the secondary direct channel is attempted before
any error is surfaced: the overall outcome equals the direct-channel outcome,
so a successful secondary yields a success and an error is thrown only after
both channels have failed. -/
theorem c6_fallback_to_direct_channel (primary secondary : NetOutcome ProductsResponse)
    (pd sd : NetOutcome DetailResponse)
    (h1 : isChannelFailure primary = true) (h2 : isChannelFailure pd = true) :
    (fetchProductsDev primary secondary).2 = true ∧
    (fetchProductsDev primary secondary).1 = fetchProductsDirect secondary ∧
    (∀ d, secondary = .ok d → (fetchProductsDev primary secondary).1 = .ok d) ∧
    (∀ e, (fetchProductsDev primary secondary).1 = .error e →
      isChannelFailure secondary = true) ∧
    (fetchProductDetailDev pd sd).2 = true ∧
    (fetchProductDetailDev pd sd).1 = fetchProductDetailDirect sd ∧
    (∀ r p, sd = .ok r → extractProduct r = .ok p →
      (fetchProductDetailDev pd sd).1 = .ok p) := by
  have hp : (fetchProductsDev primary secondary)
      = (fetchProductsDirect secondary, true) := by
    cases primary with
    | ok d => simp [isChannelFailure] at h1
    | httpError s b => rfl
    | netFail => rfl
  have hd : (fetchProductDetailDev pd sd) = (fetchProductDetailDirect sd, true) := by
    cases pd with
    | ok r => simp [isChannelFailure] at h2
    | httpError s b => rfl
    | netFail => rfl
  refine ⟨by rw [hp], by rw [hp], ?_, ?_, by rw [hd], by rw [hd], ?_⟩
  · intro d hsec
    rw [hp, hsec]
    rfl
  · intro e he
    rw [hp] at he
    cases secondary with
    | ok d => simp [fetchProductsDirect] at he
    | httpError s b => rfl
    | netFail => rfl
  · intro r p hsec hex
    rw [hd, hsec]
    simp [fetchProductDetailDirect, hex]

/-- Witness for C6: a proxy channel answering HTTP 500 falls back to the
direct channel, which succeeds. -/
theorem c6_fallback_to_direct_channel_witness :
    (fetchProductsDev (.httpError 500 "boom") (.ok ⟨some "0", none, none⟩)).1
        = .ok ⟨some "0", none, none⟩ ∧
    (fetchProductsDev (.httpError 500 "boom") (.ok ⟨some "0", none, none⟩)).2 = true := by
  constructor
  · exact (c6_fallback_to_direct_channel (.httpError 500 "boom") (.ok ⟨some "0", none, none⟩)
      .netFail .netFail (by decide) (by decide)).2.2.1 ⟨some "0", none, none⟩ rfl
  · exact (c6_fallback_to_direct_channel (.httpError 500 "boom") (.ok ⟨some "0", none, none⟩)
      .netFail .netFail (by decide) (by decide)).1

/-- Claim C9: two cached cart-read invocations against the same cart id while
the promise slot is occupied issue exactly one network call and receive the
same in-flight promise; after the slot is cleared (the post-settlement grace
delay), a third invocation issues a fresh network call with a new promise. -/
theorem c9_cart_read_dedup (s0 : DedupState) (cid : String)
    (h : s0.promises cid = none) :
    (loadCartItemsDedup s0 cid).2
        = (loadCartItemsDedup (loadCartItemsDedup s0 cid).1 cid).2 ∧
    (loadCartItemsDedup (loadCartItemsDedup s0 cid).1 cid).1.networkCalls
        = s0.networkCalls + 1 ∧
    (loadCartItemsDedup
        (clearCartPromise (loadCartItemsDedup (loadCartItemsDedup s0 cid).1 cid).1 cid)
        cid).1.networkCalls = s0.networkCalls + 2 ∧
    (loadCartItemsDedup
        (clearCartPromise (loadCartItemsDedup (loadCartItemsDedup s0 cid).1 cid).1 cid)
        cid).2 ≠ (loadCartItemsDedup s0 cid).2 := by
  simp [loadCartItemsDedup, clearCartPromise, h]

/-- Witness for C9 from an empty guard: one network call for the first two
reads, a second network call after the slot is cleared. -/
theorem c9_cart_read_dedup_witness :
    (loadCartItemsDedup (loadCartItemsDedup ⟨fun _ => none, 0, 0⟩ "cart1").1
        "cart1").1.networkCalls = 1 ∧
    (loadCartItemsDedup
        (clearCartPromise
          (loadCartItemsDedup
            (loadCartItemsDedup ⟨fun _ => none, 0, 0⟩ "cart1").1 "cart1").1 "cart1")
        "cart1").1.networkCalls = 2 := by
  have := c9_cart_read_dedup ⟨fun _ => none, 0, 0⟩ "cart1" rfl
  exact ⟨this.2.1, this.2.2.1⟩

/-- Claim C4: a successful address submission whose response carries a
non-empty shipping-method list advances the checkout state machine from the
Address stage (step 1) to the Shipping stage (step 2), stores the list, and
pre-selects the method flagged is_default when one exists, otherwise the
first method of the list. -/
theorem c4_address_success_advances_to_shipping (s : CheckoutUiState)
    (cartId : Option String) (r : CheckoutAddressResponse) (ms : List ShippingMethod)
    (hstep : s.currentStep = 1)
    (hcart : truthyOpt cartId = true)
    (hok : isSuccessResponse r.status_code r.status_message = true)
    (hms : addressShippingMethods r = some ms)
    (hne : ms ≠ []) :
    (handleSubmitModel s cartId (.ok r)).state.currentStep = 2 ∧
    (handleSubmitModel s cartId (.ok r)).state.shippingMethods = ms ∧
    (∀ m, ms.find? (fun x => x.is_default) = some m →
      (handleSubmitModel s cartId (.ok r)).state.selectedShippingMethod = m.id) ∧
    (ms.find? (fun x => x.is_default) = none → ∀ m0, ms.head? = some m0 →
      (handleSubmitModel s cartId (.ok r)).state.selectedShippingMethod = m0.id) := by
  have hlen : ms.length > 0 := List.length_pos.mpr hne
  obtain ⟨a, l, rfl⟩ : ∃ a l, ms = a :: l := by
    cases ms with
    | nil => exact absurd rfl hne
    | cons a l => exact ⟨a, l, rfl⟩
  refine ⟨?_, ?_, ?_, ?_⟩
  · cases hf : (a :: l).find? (fun m => m.is_default) with
    | some m => simp [handleSubmitModel, hcart, hok, hms, hlen, jsOrOpt, hf]
    | none => simp [handleSubmitModel, hcart, hok, hms, hlen, jsOrOpt, hf]
  · cases hf : (a :: l).find? (fun m => m.is_default) with
    | some m => simp [handleSubmitModel, hcart, hok, hms, hlen, jsOrOpt, hf]
    | none => simp [handleSubmitModel, hcart, hok, hms, hlen, jsOrOpt, hf]
  · intro m hf
    simp [handleSubmitModel, hcart, hok, hms, hlen, jsOrOpt, hf]
  · intro hf m0 hh
    have ha : a = m0 := by simpa using hh
    subst ha
    simp [handleSubmitModel, hcart, hok, hms, hlen, jsOrOpt, hf]

/-- Witness for C4: a success response with two methods, the second flagged
default, advances to step 2 with that method pre-selected. -/
theorem c4_address_success_advances_to_shipping_witness :
    (handleSubmitModel ⟨1, [], "", none, true⟩ (some "cart1")
        (.ok ⟨some "0", none,
          some ⟨some ⟨some [⟨"m1", "Slow", 1, false⟩, ⟨"m2", "Fast", 2, true⟩]⟩⟩⟩)).state.currentStep
      = 2 ∧
    (handleSubmitModel ⟨1, [], "", none, true⟩ (some "cart1")
        (.ok ⟨some "0", none,
          some ⟨some ⟨some [⟨"m1", "Slow", 1, false⟩, ⟨"m2", "Fast", 2, true⟩]⟩⟩⟩)).state.selectedShippingMethod
      = "m2" := by
  have h := c4_address_success_advances_to_shipping ⟨1, [], "", none, true⟩ (some "cart1")
    ⟨some "0", none, some ⟨some ⟨some [⟨"m1", "Slow", 1, false⟩, ⟨"m2", "Fast", 2, true⟩]⟩⟩⟩
    [⟨"m1", "Slow", 1, false⟩, ⟨"m2", "Fast", 2, true⟩]
    rfl (by decide) (by decide) (by decide) (by decide)
  exact ⟨h.1, h.2.2.1 ⟨"m2", "Fast", 2, true⟩ (by decide)⟩

/-- Claim C5: at each of the three checkout stages a failed submission —
whether the request threw or the upstream answered with a non-success
status — leaves the state machine at its current stage, surfaces the
upstream error message (or the generic stage fallback) to the UI, clears the
loading flag so the form can be re-submitted, and issues exactly one request
(no automatic retry); the confirmation stage additionally keeps the cart
cookie and does not navigate away. -/
theorem c5_stage_failure_semantics (s : CheckoutUiState) (cartId cookie : Option String)
    (m1 m2 m3 : String) (rA : CheckoutAddressResponse) (rS rC : StatusResponse)
    (confOk : Bool)
    (hcart : truthyOpt cartId = true) (hcookie : truthyOpt cookie = true)
    (hsel : ¬ s.selectedShippingMethod = "")
    (hA : isSuccessResponse rA.status_code rA.status_message = false)
    (hS : isSuccessResponse rS.status_code rS.status_message = false)
    (hC : isSuccessResponse rC.status_code rC.status_message = false) :
    ((handleSubmitModel s cartId (.error m1)).state.currentStep = s.currentStep ∧
      (handleSubmitModel s cartId (.error m1)).state.error = some m1 ∧
      (handleSubmitModel s cartId (.error m1)).state.loading = false ∧
      (handleSubmitModel s cartId (.error m1)).submitCalls = 1) ∧
    ((handleSubmitModel s cartId (.ok rA)).state.currentStep = s.currentStep ∧
      (handleSubmitModel s cartId (.ok rA)).state.error
        = some (jsOrStr rA.status_message "Failed to submit address") ∧
      (handleSubmitModel s cartId (.ok rA)).state.loading = false ∧
      (handleSubmitModel s cartId (.ok rA)).submitCalls = 1) ∧
    ((handleShippingMethodSubmitModel s cartId (.error m2) confOk).state.currentStep
        = s.currentStep ∧
      (handleShippingMethodSubmitModel s cartId (.error m2) confOk).state.error = some m2 ∧
      (handleShippingMethodSubmitModel s cartId (.error m2) confOk).state.loading = false ∧
      (handleShippingMethodSubmitModel s cartId (.error m2) confOk).submitCalls = 1) ∧
    ((handleShippingMethodSubmitModel s cartId (.ok rS) confOk).state.currentStep
        = s.currentStep ∧
      (handleShippingMethodSubmitModel s cartId (.ok rS) confOk).state.error
        = some (jsOrStr rS.status_message "Failed to submit shipping method") ∧
      (handleShippingMethodSubmitModel s cartId (.ok rS) confOk).state.loading = false ∧
      (handleShippingMethodSubmitModel s cartId (.ok rS) confOk).submitCalls = 1) ∧
    ((handleConfirmOrderModel s cookie (.error m3)).state.currentStep = s.currentStep ∧
      (handleConfirmOrderModel s cookie (.error m3)).state.error = some m3 ∧
      (handleConfirmOrderModel s cookie (.error m3)).state.loading = false ∧
      (handleConfirmOrderModel s cookie (.error m3)).cookie = cookie ∧
      (handleConfirmOrderModel s cookie (.error m3)).navigatedHome = false ∧
      (handleConfirmOrderModel s cookie (.error m3)).submitCalls = 1) ∧
    ((handleConfirmOrderModel s cookie (.ok rC)).state.currentStep = s.currentStep ∧
      (handleConfirmOrderModel s cookie (.ok rC)).state.error
        = some (jsOrStr rC.status_message "Failed to place order") ∧
      (handleConfirmOrderModel s cookie (.ok rC)).state.loading = false ∧
      (handleConfirmOrderModel s cookie (.ok rC)).cookie = cookie ∧
      (handleConfirmOrderModel s cookie (.ok rC)).navigatedHome = false ∧
      (handleConfirmOrderModel s cookie (.ok rC)).submitCalls = 1) := by
  simp [handleSubmitModel, handleShippingMethodSubmitModel, handleConfirmOrderModel,
    hcart, hcookie, hsel, hA, hS, hC]

/-- Witness for C5 at the shipping stage: a thrown submission keeps step 2,
surfaces the message, and made exactly one request. -/
theorem c5_stage_failure_semantics_witness :
    (handleShippingMethodSubmitModel ⟨2, [], "m1", none, true⟩ (some "cart1")
        (.error "HTTP 500") true).state.currentStep = 2 ∧
    (handleShippingMethodSubmitModel ⟨2, [], "m1", none, true⟩ (some "cart1")
        (.error "HTTP 500") true).state.error = some "HTTP 500" ∧
    (handleShippingMethodSubmitModel ⟨2, [], "m1", none, true⟩ (some "cart1")
        (.error "HTTP 500") true).submitCalls = 1 := by
  have h := c5_stage_failure_semantics ⟨2, [], "m1", none, true⟩ (some "cart1") (some "cart1")
    "HTTP 500" "HTTP 500" "HTTP 500" ⟨some "9", some "error", none⟩ ⟨some "9", some "error"⟩
    ⟨some "9", some "error"⟩ true (by decide) (by decide) (by decide) (by decide) (by decide)
    (by decide)
  exact ⟨h.2.2.1.1, h.2.2.1.2.1, h.2.2.1.2.2.2⟩

/-- A character list always starts with any of its own prefixes obtained by
appending. -/
theorem charsStartWith_append (a b : List Char) : charsStartWith (a ++ b) a = true := by
  induction a with
  | nil =>
    cases b with
    | nil => rfl
    | cons c cs => rfl
  | cons c cs ih => simp [charsStartWith, ih]

/-- The character data of an appended string is the appended character
data. -/
theorem data_append_eq (a b : String) : (a ++ b).data = a.data ++ b.data :=
  String.data_append a b

/-- Any string built by appending onto the https prefix starts with http. -/
theorem jsStartsWith_https_http (rest : String) :
    jsStartsWith ("https://" ++ rest) "http" = true := by
  unfold jsStartsWith
  rw [data_append_eq]
  have h : "https://".data = "http".data ++ "s://".data := by decide
  rw [h, List.append_assoc]
  exact charsStartWith_append _ _

/-- Appending any suffix onto a string keeps that string as a prefix. -/
theorem jsStartsWith_append_self (a b : String) : jsStartsWith (a ++ b) a = true := by
  unfold jsStartsWith
  rw [data_append_eq]
  exact charsStartWith_append _ _

/-- Strings that already start with http pass through getProductImageUrl
unchanged. -/
theorem getProductImageUrl_http (domainName imageUrl : String)
    (h : jsStartsWith imageUrl "http" = true) :
    getProductImageUrl domainName imageUrl = imageUrl := by
  simp [getProductImageUrl, h]

/-- Strings that do not start with http are turned into the https domain
prefix followed by some remainder. -/
theorem getProductImageUrl_relative (domainName imageUrl : String)
    (h : jsStartsWith imageUrl "http" = false) :
    ∃ rest, getProductImageUrl domainName imageUrl = ("https://" ++ domainName) ++ rest := by
  by_cases hs : jsStartsWith imageUrl "/" = true
  · exact ⟨imageUrl, by simp [getProductImageUrl, h, hs, String.append_assoc]⟩
  · have hs2 : jsStartsWith imageUrl "/" = false := by
      cases hv : jsStartsWith imageUrl "/" with
      | true => exact absurd hv hs
      | false => rfl
    exact ⟨"/" ++ imageUrl, by simp [getProductImageUrl, h, hs2, String.append_assoc]⟩

/-- Claim C10: getProductImageUrl returns strings that start with http
unchanged; it turns every other string into a URL that starts with https://
followed by the configured domain; and it is idempotent. -/
theorem c10_image_url_idempotent (domainName imageUrl : String) :
    (jsStartsWith imageUrl "http" = true →
      getProductImageUrl domainName imageUrl = imageUrl) ∧
    (jsStartsWith imageUrl "http" = false →
      jsStartsWith (getProductImageUrl domainName imageUrl)
        ("https://" ++ domainName) = true) ∧
    getProductImageUrl domainName (getProductImageUrl domainName imageUrl)
      = getProductImageUrl domainName imageUrl := by
  refine ⟨getProductImageUrl_http domainName imageUrl, ?_, ?_⟩
  · intro h
    obtain ⟨rest, hrest⟩ := getProductImageUrl_relative domainName imageUrl h
    rw [hrest]
    exact jsStartsWith_append_self _ _
  · cases h : jsStartsWith imageUrl "http" with
    | true =>
      rw [getProductImageUrl_http domainName imageUrl h]
      exact getProductImageUrl_http domainName imageUrl h
    | false =>
      obtain ⟨rest, hrest⟩ := getProductImageUrl_relative domainName imageUrl h
      have hh : jsStartsWith (getProductImageUrl domainName imageUrl) "http" = true := by
        rw [hrest, String.append_assoc]
        exact jsStartsWith_https_http _
      exact getProductImageUrl_http domainName _ hh

/-- Witness for C10: a relative image path is prefixed with the domain, an
absolute URL passes through, and a second application changes nothing. -/
theorem c10_image_url_idempotent_witness :
    getProductImageUrl "shop.example" "img/a.png" = "https://shop.example/img/a.png" ∧
    getProductImageUrl "shop.example" "https://cdn.example/b.png"
      = "https://cdn.example/b.png" ∧
    getProductImageUrl "shop.example" (getProductImageUrl "shop.example" "img/a.png")
      = getProductImageUrl "shop.example" "img/a.png" := by
  refine ⟨by decide, ?_, ?_⟩
  · exact (c10_image_url_idempotent "shop.example" "https://cdn.example/b.png").1 (by decide)
  · exact (c10_image_url_idempotent "shop.example" "img/a.png").2.2

/-- Counterexample to claim C8: a successful cart read whose response carries
the cart identity B while the stored identity is A does not update the cookie
store — getCartItems never calls setCartId in either variant of the source,
so the cookie is still A afterwards. -/
theorem c8_cart_identity_counterexample :
    responseCartIdentity
        ⟨some "0", some "success", some "B", some ⟨none, [⟨"v1", 1⟩], []⟩⟩ = some "B" ∧
    (some "B" : Option String) ≠ some "A" ∧
    getCartItemsCookieEffect
        ⟨some "0", some "success", some "B", some ⟨none, [⟨"v1", 1⟩], []⟩⟩ (some "A")
      = some "A" := by
  refine ⟨by decide, by decide, by decide⟩

/-- Claim C8 as amended: a successful add-to-cart whose response carries a
truthy cart identity different from the stored one updates the cookie store
to it, and leaves the cookie unwritten when the carried identity equals the
stored one; a successful cart read, by contrast, never writes the carried
identity — it leaves the cookie unchanged or, when the response carries no
items, deletes it. -/
theorem c8_cart_identity_cookie_update (r : CartResponse) (existing : Option String)
    (cid : String) (hcid : responseCartIdentity r = some cid) (hne : cid ≠ "") :
    (existing ≠ some cid → addToCartCookieEffect r existing = (some cid, true)) ∧
    (existing = some cid → addToCartCookieEffect r existing = (existing, false)) ∧
    (∀ e2 : Option String,
      getCartItemsCookieEffect r e2 = e2 ∨ getCartItemsCookieEffect r e2 = none) := by
  refine ⟨?_, ?_, ?_⟩
  · intro hdiff
    simp only [addToCartCookieEffect, hcid]
    rw [if_pos ⟨hne, hdiff⟩]
  · intro heq
    simp only [addToCartCookieEffect, hcid]
    have : ¬ (cid ≠ "" ∧ existing ≠ some cid) := by
      intro hc
      exact hc.2 heq
    rw [if_neg this]
  · intro e2
    unfold getCartItemsCookieEffect
    by_cases hc : (responseLineItems r).length = 0 ∧ (responseItems r).length = 0
    · right
      rw [if_pos hc]
    · left
      rw [if_neg hc]

/-- Witness for the amended C8: an add-to-cart response carrying identity B
over stored identity A writes B; over stored identity B it writes nothing. -/
theorem c8_cart_identity_cookie_update_witness :
    addToCartCookieEffect
        ⟨some "0", some "success", some "B", some ⟨none, [⟨"v1", 1⟩], []⟩⟩ (some "A")
      = (some "B", true) ∧
    addToCartCookieEffect
        ⟨some "0", some "success", some "B", some ⟨none, [⟨"v1", 1⟩], []⟩⟩ (some "B")
      = (some "B", false) := by
  constructor
  · exact (c8_cart_identity_cookie_update
      ⟨some "0", some "success", some "B", some ⟨none, [⟨"v1", 1⟩], []⟩⟩ (some "A") "B"
      (by decide) (by decide)).1 (by decide)
  · exact (c8_cart_identity_cookie_update
      ⟨some "0", some "success", some "B", some ⟨none, [⟨"v1", 1⟩], []⟩⟩ (some "B") "B"
      (by decide) (by decide)).2.1 (by decide)

/-- The variant write fold either writes the entry of the populating product
at a key or leaves the cache unchanged there. -/
theorem variantFold_eq_or (p : Product) (now : Int) (vs : List ProductVariant)
    (c : Cache) (k : String) :
    (vs.foldl (fun acc v =>
        if v.variant_id ≠ "" then cacheSet acc v.variant_id ⟨p, now⟩ else acc) c) k
        = some ⟨p, now⟩ ∨
    (vs.foldl (fun acc v =>
        if v.variant_id ≠ "" then cacheSet acc v.variant_id ⟨p, now⟩ else acc) c) k
        = c k := by
  induction vs generalizing c with
  | nil => right; rfl
  | cons v ws ih =>
    simp only [List.foldl_cons]
    rcases ih (if v.variant_id ≠ "" then cacheSet c v.variant_id ⟨p, now⟩ else c) with h | h
    · left; exact h
    · rw [h]
      by_cases hv : v.variant_id ≠ ""
      · rw [if_pos hv]
        unfold cacheSet
        by_cases hk : k = v.variant_id
        · left; rw [if_pos hk]
        · right; rw [if_neg hk]
      · right; rw [if_neg hv]

/-- The variant write fold stores the populating product entry under every
truthy variant id of the list. -/
theorem variantFold_mem (p : Product) (now : Int) (vs : List ProductVariant)
    (c : Cache) (v : ProductVariant) (hv : v ∈ vs) (hne : v.variant_id ≠ "") :
    (vs.foldl (fun acc w =>
        if w.variant_id ≠ "" then cacheSet acc w.variant_id ⟨p, now⟩ else acc) c)
        v.variant_id = some ⟨p, now⟩ := by
  induction vs generalizing c with
  | nil => cases hv
  | cons w ws ih =>
    simp only [List.foldl_cons]
    rcases List.mem_cons.mp hv with hvw | hmem
    · have hc1 : (if w.variant_id ≠ "" then cacheSet c w.variant_id ⟨p, now⟩ else c)
          v.variant_id = some ⟨p, now⟩ := by
        rw [hvw] at hne ⊢
        rw [if_pos hne]
        unfold cacheSet
        rw [if_pos rfl]
      rcases variantFold_eq_or p now ws
          (if w.variant_id ≠ "" then cacheSet c w.variant_id ⟨p, now⟩ else c)
          v.variant_id with h2 | h2
      · exact h2
      · rw [h2, hc1]
    · exact ih _ hmem

/-- The variant write fold leaves a key untouched when no variant of the list
writes it (the only variants matching the key have the falsy empty id). -/
theorem variantFold_not_written (p : Product) (now : Int) (vs : List ProductVariant)
    (c : Cache) (k : String)
    (h : ∀ v ∈ vs, v.variant_id = k → v.variant_id = "") :
    (vs.foldl (fun acc v =>
        if v.variant_id ≠ "" then cacheSet acc v.variant_id ⟨p, now⟩ else acc) c) k
        = c k := by
  induction vs generalizing c with
  | nil => rfl
  | cons w ws ih =>
    simp only [List.foldl_cons]
    have hstep : (if w.variant_id ≠ "" then cacheSet c w.variant_id ⟨p, now⟩ else c) k
        = c k := by
      by_cases hw : w.variant_id ≠ ""
      · rw [if_pos hw]
        unfold cacheSet
        have hk : k ≠ w.variant_id := by
          intro hk
          exact hw (h w (List.mem_cons_self w ws) hk.symm)
        rw [if_neg hk]
      · rw [if_neg hw]
    rw [ih _ (fun v hv => h v (List.mem_cons_of_mem w hv)), hstep]

/-- cacheProduct stores the product entry under its own product_id. -/
theorem cacheProduct_pid (c : Cache) (p : Product) (now : Int) :
    cacheProduct c p now p.product_id = some ⟨p, now⟩ := by
  simp only [cacheProduct]
  by_cases h : p.variants.length > 0
  · rw [if_pos h]
    unfold cacheVariantWrites
    rcases variantFold_eq_or p now p.variants (cacheSet c p.product_id ⟨p, now⟩)
        p.product_id with h2 | h2
    · exact h2
    · rw [h2]
      unfold cacheSet
      rw [if_pos rfl]
  · rw [if_neg h]
    unfold cacheSet
    rw [if_pos rfl]

/-- cacheProduct stores the product entry under every truthy variant id. -/
theorem cacheProduct_variant (c : Cache) (p : Product) (now : Int) (v : ProductVariant)
    (hv : v ∈ p.variants) (hne : v.variant_id ≠ "") :
    cacheProduct c p now v.variant_id = some ⟨p, now⟩ := by
  have hlen : p.variants.length > 0 := List.length_pos.mpr (List.ne_nil_of_mem hv)
  simp only [cacheProduct]
  rw [if_pos hlen]
  unfold cacheVariantWrites
  exact variantFold_mem p now p.variants _ v hv hne

/-- cacheProduct leaves every key outside productCacheKeys unchanged. -/
theorem cacheProduct_other (c : Cache) (p : Product) (now : Int) (k : String)
    (h : k ∉ productCacheKeys p) : cacheProduct c p now k = c k := by
  have h1 : k ≠ p.product_id := by
    intro he
    exact h (by rw [productCacheKeys, he]; exact List.mem_cons_self _ _)
  have h2 : ∀ v ∈ p.variants, v.variant_id = k → v.variant_id = "" := by
    intro v hv hk
    by_contra hne
    apply h
    rw [productCacheKeys]
    apply List.mem_cons_of_mem
    refine List.mem_map.mpr ⟨v, List.mem_filter.mpr ⟨hv, ?_⟩, hk⟩
    simpa using hne
  have hset : cacheSet c p.product_id ⟨p, now⟩ k = c k := by
    unfold cacheSet
    rw [if_neg h1]
  simp only [cacheProduct]
  by_cases hlen : p.variants.length > 0
  · rw [if_pos hlen]
    unfold cacheVariantWrites
    rw [variantFold_not_written p now p.variants _ k h2, hset]
  · rw [if_neg hlen, hset]

/-- populateFromList leaves every key untouched by all listed products
unchanged. -/
theorem populate_not_written (l : List Product) (now : Int) (c : Cache) (k : String)
    (h : ∀ q ∈ l, k ∉ productCacheKeys q) : populateFromList l now c k = c k := by
  induction l generalizing c with
  | nil => rfl
  | cons p ps ih =>
    have hrest := ih (cacheProduct c p now) (fun q hq => h q (List.mem_cons_of_mem p hq))
    simp only [populateFromList, List.foldl_cons] at hrest ⊢
    rw [hrest]
    exact cacheProduct_other c p now k (h p (List.mem_cons_self p ps))

/-- After a bulk populate, a key written by a product of the list and not
re-written by any later product holds the entry of that product. -/
theorem populate_key (l1 l2 : List Product) (p : Product) (now : Int) (c : Cache)
    (k : String)
    (hkey : ∀ c0 : Cache, cacheProduct c0 p now k = some ⟨p, now⟩)
    (hlater : ∀ q ∈ l2, k ∉ productCacheKeys q) :
    populateFromList (l1 ++ p :: l2) now c k = some ⟨p, now⟩ := by
  have h2 := populate_not_written l2 now
    (cacheProduct (populateFromList l1 now c) p now) k hlater
  simp only [populateFromList, List.foldl_append, List.foldl_cons] at h2 ⊢
  rw [h2]
  exact hkey _

/-- Claim C1: after a successful bulk fetchProducts whose payload carries the
product list, the cache is populated so that — within the freshness window
and with ids not re-used by a later product of the list — a lookup by the
primary product id and a lookup by any truthy variant id of that product both
return the identical product record, and a subsequent fetchProductDetail on
either id is answered from the cache with no network call, whatever the
network would have answered. -/
theorem c1_bulk_populate_cache_consistency (c : Cache) (plc : Option ListCache)
    (now t : Int) (data : ProductsResponse) (pl : ProductsPayload)
    (ps l1 l2 : List Product) (p : Product) (v : ProductVariant)
    (net1 net2 : NetOutcome DetailResponse)
    (hpl : data.payload = some pl) (hps : pl.products = some ps)
    (hsplit : ps = l1 ++ p :: l2)
    (hv : v ∈ p.variants) (hvne : v.variant_id ≠ "")
    (hq1 : ∀ q ∈ l2, p.product_id ∉ productCacheKeys q)
    (hq2 : ∀ q ∈ l2, v.variant_id ∉ productCacheKeys q)
    (hfresh : t - now < CACHE_DURATION) :
    cacheLookup (fetchProductsWebhook c plc now (.ok data)).cache p.product_id t
        = some p ∧
    cacheLookup (fetchProductsWebhook c plc now (.ok data)).cache v.variant_id t
        = some p ∧
    (fetchProductDetailWebhook (fetchProductsWebhook c plc now (.ok data)).cache
        (fetchProductsWebhook c plc now (.ok data)).listCache p.product_id t net1).result
        = .ok p ∧
    (fetchProductDetailWebhook (fetchProductsWebhook c plc now (.ok data)).cache
        (fetchProductsWebhook c plc now (.ok data)).listCache p.product_id t
        net1).networkCalled = false ∧
    (fetchProductDetailWebhook (fetchProductsWebhook c plc now (.ok data)).cache
        (fetchProductsWebhook c plc now (.ok data)).listCache v.variant_id t net2).result
        = .ok p ∧
    (fetchProductDetailWebhook (fetchProductsWebhook c plc now (.ok data)).cache
        (fetchProductsWebhook c plc now (.ok data)).listCache v.variant_id t
        net2).networkCalled = false := by
  have hcache : (fetchProductsWebhook c plc now (.ok data)).cache
      = populateFromList ps now c := by
    simp [fetchProductsWebhook, hpl, hps]
  have hpid : populateFromList ps now c p.product_id = some ⟨p, now⟩ := by
    rw [hsplit]
    exact populate_key l1 l2 p now c p.product_id
      (fun c0 => cacheProduct_pid c0 p now) hq1
  have hvar : populateFromList ps now c v.variant_id = some ⟨p, now⟩ := by
    rw [hsplit]
    exact populate_key l1 l2 p now c v.variant_id
      (fun c0 => cacheProduct_variant c0 p now v hv hvne) hq2
  have hlook1 : cacheLookup (populateFromList ps now c) p.product_id t = some p := by
    unfold cacheLookup
    rw [hpid]
    simp [hfresh]
  have hlook2 : cacheLookup (populateFromList ps now c) v.variant_id t = some p := by
    unfold cacheLookup
    rw [hvar]
    simp [hfresh]
  rw [hcache]
  have hd1 : ∀ lc, fetchProductDetailWebhook (populateFromList ps now c) lc
      p.product_id t net1 = ⟨.ok p, false, populateFromList ps now c⟩ := by
    intro lc
    unfold fetchProductDetailWebhook
    rw [hlook1]
  have hd2 : ∀ lc, fetchProductDetailWebhook (populateFromList ps now c) lc
      v.variant_id t net2 = ⟨.ok p, false, populateFromList ps now c⟩ := by
    intro lc
    unfold fetchProductDetailWebhook
    rw [hlook2]
  refine ⟨hlook1, hlook2, ?_, ?_, ?_, ?_⟩
  · rw [hd1]
  · rw [hd1]
  · rw [hd2]
  · rw [hd2]

/-- Witness for C1: a one-product catalog with one variant, fetched at time 0
and looked up at time 10 by product id and by variant id. -/
theorem c1_bulk_populate_cache_consistency_witness :
    cacheLookup (fetchProductsWebhook emptyCache none 0
        (.ok ⟨some "0", none, some ⟨some [⟨"p1", "Aspirin", [⟨"v1", 5⟩]⟩]⟩⟩)).cache "p1" 10
      = some ⟨"p1", "Aspirin", [⟨"v1", 5⟩]⟩ ∧
    cacheLookup (fetchProductsWebhook emptyCache none 0
        (.ok ⟨some "0", none, some ⟨some [⟨"p1", "Aspirin", [⟨"v1", 5⟩]⟩]⟩⟩)).cache "v1" 10
      = some ⟨"p1", "Aspirin", [⟨"v1", 5⟩]⟩ ∧
    (fetchProductDetailWebhook (fetchProductsWebhook emptyCache none 0
        (.ok ⟨some "0", none, some ⟨some [⟨"p1", "Aspirin", [⟨"v1", 5⟩]⟩]⟩⟩)).cache
        (fetchProductsWebhook emptyCache none 0
        (.ok ⟨some "0", none, some ⟨some [⟨"p1", "Aspirin", [⟨"v1", 5⟩]⟩]⟩⟩)).listCache
        "v1" 10 .netFail).networkCalled = false := by
  have h := c1_bulk_populate_cache_consistency emptyCache none 0 10
    ⟨some "0", none, some ⟨some [⟨"p1", "Aspirin", [⟨"v1", 5⟩]⟩]⟩⟩
    ⟨some [⟨"p1", "Aspirin", [⟨"v1", 5⟩]⟩]⟩
    [⟨"p1", "Aspirin", [⟨"v1", 5⟩]⟩] [] [] ⟨"p1", "Aspirin", [⟨"v1", 5⟩]⟩ ⟨"v1", 5⟩
    .netFail .netFail rfl rfl rfl (by decide) (by decide)
    (by intro q hq; cases hq) (by intro q hq; cases hq) (by decide)
  exact ⟨h.1, h.2.1, h.2.2.2.2.2⟩

end ActivePharm
